import Mathlib

/-!
Verification of the boot entry stage in src/app/src/kernel/c_entry/main.c.

The stage has two functions: validate_boot_info, which checks a boot
descriptor and reports a diagnostic code through the errno cell on
failure, and kernel_main, which writes four cells of a text-mode display,
validates the descriptor, and hands a wrapper holding the descriptor and
the verdict to the next stage.

The embedding keeps the data flow of the C source and makes the side
effects explicit: validate_boot_info returns the verdict together with
the list of stores to the errno cell it performs, and kernel_main returns
the full list of observable events of one call, in program order: the
four display stores, the errno stores of the one validation call, and
the handoff. The C functions perform no other stores; in particular the
descriptor is only ever read (the parameter is a pointer to const and
every access to it in the source is a load).
-/

namespace IonOs

/-- The BootInfo record of main.c: ten unsigned integer fields, in the
order the C struct declares them. Field values are the natural numbers
the machine words denote. -/
structure BootInfo where
  multiboot_magic : Nat
  multiboot_info : Nat
  cpuid_edx : Nat
  cpuid_ecx : Nat
  page_table_base : Nat
  stack_top : Nat
  framebuffer_addr : Nat
  memory_map_addr : Nat
  kernel_entry : Nat
  boot_entry : Nat
deriving DecidableEq, Repr

/-- The ValidatedBootInfo wrapper of main.c: the descriptor handed on
(the C field is a pointer to the caller's descriptor; the embedding
carries the descriptor value it points at) and the verdict. -/
structure ValidatedBootInfo where
  input : BootInfo
  validity : Bool
deriving DecidableEq, Repr

/-- One observable event of a run of kernel_main: a 16-bit store to a
cell of the text display at 0xB8000 (offset in cells from that base), a
store to the errno cell, or the call of rust_kernel_entry with a
wrapper value. -/
inductive Event where
  | vgaWrite (offset : Nat) (cell : Nat)
  | errnoWrite (code : Nat)
  | rustEntry (vbi : ValidatedBootInfo)
deriving DecidableEq, Repr

/-- validate_boot_info of main.c. The checks appear in source order;
each failing branch stores one code into errno and returns false. The
returned list holds the errno stores of the call in order. The C masks
0xFFF and 0xF are kept as bitwise ands. -/
def validate_boot_info (bi : BootInfo) : Bool × List Nat :=
  if bi.multiboot_magic ≠ 0x36d76289 then
    (false, [7])
  else if bi.page_table_base = 0 ∨ bi.page_table_base &&& 0xFFF ≠ 0 then
    (false, [2])
  else if bi.stack_top = 0 ∨ bi.stack_top &&& 0xF ≠ 0 then
    (false, [2])
  else if bi.kernel_entry = 0 then
    (false, [2])
  else if bi.framebuffer_addr = 0 then
    (false, [2])
  else if bi.memory_map_addr = 0 then
    (false, [2])
  else
    (true, [])

/-- kernel_main of main.c as its event trace, in program order: the four
display stores (cells 0 and 1 get the OK signature, cells 2 and 3 get
0x0730 plus the low and the second nibble of the magic field), then the
errno stores of the one validate_boot_info call, then the handoff call
carrying the descriptor and the verdict. -/
def kernel_main (bi : BootInfo) : List Event :=
  [Event.vgaWrite 0 0x074F,
   Event.vgaWrite 1 0x074B,
   Event.vgaWrite 2 (0x0730 + ((bi.multiboot_magic >>> 0) &&& 0xF)),
   Event.vgaWrite 3 (0x0730 + ((bi.multiboot_magic >>> 4) &&& 0xF))]
  ++ (validate_boot_info bi).2.map Event.errnoWrite
  ++ [Event.rustEntry ⟨bi, (validate_boot_info bi).1⟩]

/-- Modelled from the spec: the ASCII codes that render as a hexadecimal
digit glyph, namely the digits 0 to 9 and the letters A to F in either
case. The spec claims the display bytes derived from the magic field are
such glyphs; this set is what that claim is checked against. -/
def isHexDigitGlyph (b : Nat) : Bool :=
  decide ((0x30 ≤ b ∧ b ≤ 0x39) ∨ (0x41 ≤ b ∧ b ≤ 0x46) ∨ (0x61 ≤ b ∧ b ≤ 0x66))

/-- A descriptor passing all six checks; the checked fields are the
worked example of the spec. -/
def sampleGood : BootInfo :=
  { multiboot_magic := 0x36d76289
    multiboot_info := 0x9500
    cpuid_edx := 0x178BFBFF
    cpuid_ecx := 0x80202001
    page_table_base := 0x1000
    stack_top := 0x2000
    framebuffer_addr := 0x4000
    memory_map_addr := 0x5000
    kernel_entry := 0x3000
    boot_entry := 0x7C00 }

/-- The spec's wrong-magic example: magic 0xDEADBEEF, other fields as in
the passing example. -/
def sampleBadMagic : BootInfo :=
  { sampleGood with multiboot_magic := 0xDEADBEEF }

/-- The spec's misalignment example: page table base 0x1001, everything
else as in the passing example. -/
def sampleMisaligned : BootInfo :=
  { sampleGood with page_table_base := 0x1001 }

/-- A descriptor whose magic field has low nibble ten: its display glyph
under the code's rendering is the colon, not a hexadecimal digit. -/
def sampleNibbleTen : BootInfo :=
  { sampleGood with multiboot_magic := 0x0A }

/-- A descriptor agreeing with sampleGood on the six checked fields and
differing on all four unchecked ones. -/
def sampleGoodAlt : BootInfo :=
  { sampleGood with
    multiboot_info := 0xFFFF
    cpuid_edx := 0
    cpuid_ecx := 5
    boot_entry := 0 }

/-- A descriptor whose magic field shares its low byte 0xEF with the
wrong-magic example while the rest of the magic word differs. -/
def sampleLowEF : BootInfo :=
  { sampleGood with multiboot_magic := 0x1EF }

/-- The low twelve bits of a word as a remainder: the mask 0xFFF the C
source applies to the page table base computes the residue mod 4096. -/
theorem land_fff_eq_mod (n : Nat) : n &&& 0xFFF = n % 4096 := by
  have h := Nat.and_pow_two_sub_one_eq_mod n 12
  norm_num at h
  exact h

/-- The low four bits of a word as a remainder: the mask 0xF the C
source applies to the stack top computes the residue mod 16. -/
theorem land_f_eq_mod (n : Nat) : n &&& 0xF = n % 16 := by
  have h := Nat.and_pow_two_sub_one_eq_mod n 4
  norm_num at h
  exact h

/-- The nibble extraction of the display code as remainders. -/
theorem nibble_eq_mod (m : Nat) :
    (m >>> 0) &&& 0xF = m % 16 ∧ (m >>> 4) &&& 0xF = m / 16 % 16 := by
  constructor
  · rw [land_f_eq_mod, Nat.shiftRight_zero]
  · rw [land_f_eq_mod, Nat.shiftRight_eq_div_pow]

/-- validate_boot_info takes one of exactly three result values: magic
failure, structural failure, or a pass with no errno store. -/
theorem validate_cases (bi : BootInfo) :
    validate_boot_info bi = (false, [7]) ∨
    validate_boot_info bi = (false, [2]) ∨
    validate_boot_info bi = (true, []) := by
  unfold validate_boot_info
  split_ifs <;> simp

/-- C1: for every descriptor whose magic field differs from 0x36d76289,
validate_boot_info returns false and performs exactly one diagnostic
store, of the code 7, whatever the other nine fields hold: the magic
check runs first and its failing branch returns at once. -/
theorem c1_wrong_magic_fails_with_seven (bi : BootInfo)
    (h : bi.multiboot_magic ≠ 0x36d76289) :
    validate_boot_info bi = (false, [7]) := by
  unfold validate_boot_info
  rw [if_pos h]

/-- C1 witness: the wrong-magic example of the spec, magic 0xDEADBEEF. -/
theorem c1_wrong_magic_fails_with_seven_witness :
    validate_boot_info sampleBadMagic = (false, [7]) :=
  c1_wrong_magic_fails_with_seven sampleBadMagic (by decide)

/-- C2: with correct magic, a structural violation (page table base zero
or not 4096-aligned, stack top zero or not 16-aligned, or a zero kernel
entry, framebuffer or memory map address) makes validate_boot_info
return false with exactly one diagnostic store of the code 2; all five
structural branches store the same code, so the fixed first-failure
order of the source yields this one result whichever check fails
first. -/
theorem c2_structural_violation_fails_with_two (bi : BootInfo)
    (hm : bi.multiboot_magic = 0x36d76289)
    (hv : bi.page_table_base = 0 ∨ bi.page_table_base % 4096 ≠ 0 ∨
          bi.stack_top = 0 ∨ bi.stack_top % 16 ≠ 0 ∨
          bi.kernel_entry = 0 ∨ bi.framebuffer_addr = 0 ∨
          bi.memory_map_addr = 0) :
    validate_boot_info bi = (false, [2]) := by
  unfold validate_boot_info
  simp only [land_fff_eq_mod, land_f_eq_mod]
  split_ifs <;> first | rfl | tauto

/-- C2 witness: the misalignment example of the spec, page table base
0x1001. -/
theorem c2_structural_violation_fails_with_two_witness :
    validate_boot_info sampleMisaligned = (false, [2]) :=
  c2_structural_violation_fails_with_two sampleMisaligned (by decide) (by decide)

/-- C3: a descriptor passing all six checks makes validate_boot_info
return true with no diagnostic store at all: the errno cell is left
exactly as the caller had it. -/
theorem c3_all_checks_pass (bi : BootInfo)
    (hm : bi.multiboot_magic = 0x36d76289)
    (hpt0 : bi.page_table_base ≠ 0) (hpta : bi.page_table_base % 4096 = 0)
    (hst0 : bi.stack_top ≠ 0) (hsta : bi.stack_top % 16 = 0)
    (hke : bi.kernel_entry ≠ 0) (hfb : bi.framebuffer_addr ≠ 0)
    (hmm : bi.memory_map_addr ≠ 0) :
    validate_boot_info bi = (true, []) := by
  unfold validate_boot_info
  simp only [land_fff_eq_mod, land_f_eq_mod]
  split_ifs <;> first | rfl | tauto

/-- C3 witness: the passing example of the spec. -/
theorem c3_all_checks_pass_witness :
    validate_boot_info sampleGood = (true, []) :=
  c3_all_checks_pass sampleGood (by decide) (by decide) (by decide) (by decide)
    (by decide) (by decide) (by decide) (by decide)

/-- C4: each run of kernel_main performs exactly one handoff call, for
passing and failing descriptors alike, and the wrapper it hands on
carries the original descriptor unchanged together with the verdict of
the validation call: the handoff events of the trace are exactly one
call of rust_kernel_entry with that wrapper. -/
theorem c4_handoff_exactly_once (bi : BootInfo) :
    (kernel_main bi).filter
        (fun e => match e with | Event.rustEntry _ => true | _ => false) =
      [Event.rustEntry ⟨bi, (validate_boot_info bi).fst⟩] := by
  rcases validate_cases bi with h | h | h <;> simp [kernel_main, h, List.filter]

/-- C5 counterexample: on the descriptor whose magic field is 0x0A the
code stores the cell value 0x073A at display offset 2; the character
byte of that cell is 0x3A, the colon, which is not a hexadecimal digit
glyph, so the low byte of the magic field is not rendered as two
hexadecimal digit glyphs. -/
theorem c5_display_not_hex_counterexample :
    Event.vgaWrite 2 0x073A ∈ kernel_main sampleNibbleTen ∧
    isHexDigitGlyph (0x073A % 256) = false := by
  decide

/-- C5 amended: each run of kernel_main stores exactly four display
cells, at offsets 0 to 3, each a 16-bit value of attribute byte 0x07
over a character byte: the letters O and K at offsets 0 and 1, and at
offsets 2 and 3 the bytes obtained by adding the low and the second
nibble of the magic field to 0x30, the ASCII digit zero (a hexadecimal
digit glyph only when the nibble is at most nine). -/
theorem c5_display_cells (bi : BootInfo) :
    ∃ rest, kernel_main bi =
        Event.vgaWrite 0 (0x07 * 256 + 0x4F) ::
        Event.vgaWrite 1 (0x07 * 256 + 0x4B) ::
        Event.vgaWrite 2 (0x07 * 256 + (0x30 + bi.multiboot_magic % 16)) ::
        Event.vgaWrite 3 (0x07 * 256 + (0x30 + bi.multiboot_magic / 16 % 16)) ::
        rest ∧
      ∀ off cell, Event.vgaWrite off cell ∉ rest := by
  refine ⟨(validate_boot_info bi).2.map Event.errnoWrite ++
    [Event.rustEntry ⟨bi, (validate_boot_info bi).1⟩], ?_, ?_⟩
  · simp [kernel_main, land_f_eq_mod, (nibble_eq_mod bi.multiboot_magic).2]
    omega
  · intro off cell hmem
    rcases validate_cases bi with h | h | h <;> simp [h] at hmem

/-- C6: a full run of kernel_main only ever stores to the four display
cells at offsets 0 to 3 and to the errno cell; every event of the trace
is one of those stores or the single handoff, which passes the
descriptor on unchanged, so no field of the descriptor is ever
written. -/
theorem c6_frame (bi : BootInfo) :
    ∀ e ∈ kernel_main bi,
      (∃ off cell, off < 4 ∧ e = Event.vgaWrite off cell) ∨
      (∃ c, e = Event.errnoWrite c) ∨
      e = Event.rustEntry ⟨bi, (validate_boot_info bi).fst⟩ := by
  intro e he
  simp only [kernel_main, List.mem_append, List.mem_cons, List.not_mem_nil,
    or_false, List.mem_map, List.mem_singleton] at he
  rcases he with ((h | h | h | h) | ⟨c, _, h⟩) | h <;> subst h
  · exact Or.inl ⟨0, _, by norm_num, rfl⟩
  · exact Or.inl ⟨1, _, by norm_num, rfl⟩
  · exact Or.inl ⟨2, _, by norm_num, rfl⟩
  · exact Or.inl ⟨3, _, by norm_num, rfl⟩
  · exact Or.inr (Or.inl ⟨c, rfl⟩)
  · exact Or.inr (Or.inr rfl)

/-- C6 witness: the first display store of the passing example is one of
the allowed effects. -/
theorem c6_frame_witness :
    (∃ off cell, off < 4 ∧
      Event.vgaWrite 0 0x074F = Event.vgaWrite off cell) ∨
    (∃ c, Event.vgaWrite 0 0x074F = Event.errnoWrite c) ∨
    Event.vgaWrite 0 0x074F =
      Event.rustEntry ⟨sampleGood, (validate_boot_info sampleGood).fst⟩ :=
  c6_frame sampleGood (Event.vgaWrite 0 0x074F) (by decide)

/-- C7: the handoff is the last action of kernel_main: its trace is a
prefix holding no handoff, followed by the one rust_kernel_entry call,
so no event of any kind follows the control transfer in this stage. -/
theorem c7_handoff_terminal (bi : BootInfo) :
    ∃ pre, kernel_main bi =
        pre ++ [Event.rustEntry ⟨bi, (validate_boot_info bi).fst⟩] ∧
      ∀ vbi : ValidatedBootInfo, Event.rustEntry vbi ∉ pre := by
  refine ⟨[Event.vgaWrite 0 0x074F,
    Event.vgaWrite 1 0x074B,
    Event.vgaWrite 2 (0x0730 + ((bi.multiboot_magic >>> 0) &&& 0xF)),
    Event.vgaWrite 3 (0x0730 + ((bi.multiboot_magic >>> 4) &&& 0xF))] ++
      (validate_boot_info bi).2.map Event.errnoWrite, ?_, ?_⟩
  · simp [kernel_main]
  · intro vbi hmem
    rcases validate_cases bi with h | h | h <;> simp [h] at hmem

/-- C8: two descriptors agreeing on the six checked fields get the same
verdict and the same diagnostic stores from validate_boot_info, however
the four unchecked fields (multiboot_info, cpuid_edx, cpuid_ecx,
boot_entry) differ: validation never reads them. -/
theorem c8_unchecked_fields_irrelevant (b1 b2 : BootInfo)
    (hmag : b1.multiboot_magic = b2.multiboot_magic)
    (hpt : b1.page_table_base = b2.page_table_base)
    (hst : b1.stack_top = b2.stack_top)
    (hke : b1.kernel_entry = b2.kernel_entry)
    (hfb : b1.framebuffer_addr = b2.framebuffer_addr)
    (hmm : b1.memory_map_addr = b2.memory_map_addr) :
    validate_boot_info b1 = validate_boot_info b2 := by
  unfold validate_boot_info
  rw [hmag, hpt, hst, hke, hfb, hmm]

/-- C8 witness: the passing example and its variant differing in all
four unchecked fields validate identically. -/
theorem c8_unchecked_fields_irrelevant_witness :
    validate_boot_info sampleGood = validate_boot_info sampleGoodAlt :=
  c8_unchecked_fields_irrelevant sampleGood sampleGoodAlt rfl rfl rfl rfl rfl rfl

/-- C9: the display output of kernel_main is a function of the low byte
of the magic field alone: two descriptors agreeing there get identical
first four trace events, and every display store of a run lies in those
first four events, laid down before validation runs, so the display
never depends on the verdict or any other field. -/
theorem c9_display_depends_on_low_byte (b1 b2 : BootInfo)
    (h : b1.multiboot_magic % 256 = b2.multiboot_magic % 256) :
    (kernel_main b1).take 4 = (kernel_main b2).take 4 ∧
    ∀ off cell, Event.vgaWrite off cell ∈ kernel_main b1 →
      Event.vgaWrite off cell ∈ (kernel_main b1).take 4 := by
  have h1 : b1.multiboot_magic % 16 = b2.multiboot_magic % 16 := by omega
  have h2 : b1.multiboot_magic / 16 % 16 = b2.multiboot_magic / 16 % 16 := by
    omega
  constructor
  · simp [kernel_main, land_f_eq_mod, (nibble_eq_mod b1.multiboot_magic).2,
      (nibble_eq_mod b2.multiboot_magic).2, h1, h2]
  · intro off cell hmem
    rcases validate_cases b1 with hv | hv | hv <;>
      simp [kernel_main, hv] at hmem ⊢ <;> tauto

/-- C9 witness: the wrong-magic example and the descriptor with magic
0x1EF share the low byte 0xEF of the magic field, so their runs agree on
the first four events, and the first display store of the wrong-magic
run lies among them. -/
theorem c9_display_depends_on_low_byte_witness :
    (kernel_main sampleBadMagic).take 4 = (kernel_main sampleLowEF).take 4 ∧
    ∀ off cell, Event.vgaWrite off cell ∈ kernel_main sampleBadMagic →
      Event.vgaWrite off cell ∈ (kernel_main sampleBadMagic).take 4 :=
  c9_display_depends_on_low_byte sampleBadMagic sampleLowEF (by decide)

/-- C10: validation stores to the errno cell at most once per run, only
the codes 7 or 2: the one-element store list is exactly the code 7 when
the magic check fails, exactly the code 2 when the magic check passes
and some structural check fails, and the errno stores of the whole
kernel_main run are exactly those of its one validation call. -/
theorem c10_diagnostic_discipline (bi : BootInfo) :
    (validate_boot_info bi).snd.length ≤ 1 ∧
    (∀ c ∈ (validate_boot_info bi).snd, c = 7 ∨ c = 2) ∧
    ((validate_boot_info bi).snd = [7] ↔
      bi.multiboot_magic ≠ 0x36d76289) ∧
    ((validate_boot_info bi).snd = [2] ↔
      (bi.multiboot_magic = 0x36d76289 ∧
       (bi.page_table_base = 0 ∨ bi.page_table_base % 4096 ≠ 0 ∨
        bi.stack_top = 0 ∨ bi.stack_top % 16 ≠ 0 ∨
        bi.kernel_entry = 0 ∨ bi.framebuffer_addr = 0 ∨
        bi.memory_map_addr = 0))) ∧
    (∀ c, Event.errnoWrite c ∈ kernel_main bi ↔
      c ∈ (validate_boot_info bi).snd) := by
  have hk : ∀ c, Event.errnoWrite c ∈ kernel_main bi ↔
      c ∈ (validate_boot_info bi).snd := by
    intro c
    simp [kernel_main]
  have hmain : (validate_boot_info bi).snd.length ≤ 1 ∧
      (∀ c ∈ (validate_boot_info bi).snd, c = 7 ∨ c = 2) ∧
      ((validate_boot_info bi).snd = [7] ↔
        bi.multiboot_magic ≠ 0x36d76289) ∧
      ((validate_boot_info bi).snd = [2] ↔
        (bi.multiboot_magic = 0x36d76289 ∧
         (bi.page_table_base = 0 ∨ bi.page_table_base % 4096 ≠ 0 ∨
          bi.stack_top = 0 ∨ bi.stack_top % 16 ≠ 0 ∨
          bi.kernel_entry = 0 ∨ bi.framebuffer_addr = 0 ∨
          bi.memory_map_addr = 0))) := by
    unfold validate_boot_info
    simp only [land_fff_eq_mod, land_f_eq_mod]
    split_ifs <;> refine ⟨by simp, by simp, ?_, ?_⟩ <;> simp_all <;> tauto
  exact ⟨hmain.1, hmain.2.1, hmain.2.2.1, hmain.2.2.2, hk⟩

end IonOs
